import Mathlib

/-!
# Verification of the weak-network video streaming transport

Shallow embedding of the UDP transport core of the repository
(`src/common/network_utils/protocol.py`, `src/common/network_utils/monitoring.py`,
`src/server/network/transport_server.py`, `src/client/network/transport_client.py`,
`src/server/encoder/roi_detector.py`) together with proofs and refutations of the
specification's claims about it.

Modelling conventions:
* Byte strings are `List Nat` (each element a byte value).
* Python `float` timestamps are modelled in integer milliseconds (`Nat`),
  the unit actually used on the wire (`int(timestamp * 1000)`).
* Network statistics (`rtt`, `packet_loss`, `bandwidth`) are rationals.
* Python `int()` truncation toward zero is `pyInt`.
* Fallible operations return `Option`.
-/

set_option linter.unusedVariables false

namespace Streaming


/-- Python `int()` on a rational: truncation toward zero
(floor for nonnegative arguments, ceiling for negative ones). -/
def pyInt (q : ℚ) : ℤ := if 0 ≤ q then ⌊q⌋ else ⌈q⌉

/-! ## Packet data model (`common/network_utils/protocol.py`)

The base `Packet` header is `type(1B) + seq(4B) + timestamp(8B) + flags(1B) + size(4B)`
(`HEADER_FORMAT = "!BIQBI"`, big-endian, 18 bytes). -/

def PACKET_TYPE_VIDEO : Nat := 0

def PACKET_TYPE_AUDIO : Nat := 1

def PACKET_TYPE_CONTROL : Nat := 2

def PACKET_TYPE_FEC : Nat := 3

def PACKET_TYPE_HEARTBEAT : Nat := 4

/-- In-memory state of the base `Packet` class: `packet_type`, `seq_num`,
`timestamp` (modelled in ms), `flags`, `payload`. -/
structure BasePacket where
  packetType : Nat
  seqNum : Nat
  tsMs : Nat
  flags : Nat
  payload : List Nat
  deriving Repr, DecidableEq

/-- In-memory state of a `VideoPacket`: the base fields (with
`packet_type = PACKET_TYPE_VIDEO`) plus `frame_index`, `fragment_index`
and `total_fragments`. -/
structure VideoPacket where
  seqNum : Nat
  tsMs : Nat
  flags : Nat
  payload : List Nat
  frameIndex : Nat
  fragmentIndex : Nat
  totalFragments : Nat
  deriving Repr, DecidableEq

namespace VideoPacket

def FLAG_KEYFRAME : Nat := 0x01

def FLAG_ROI : Nat := 0x02

def FLAG_FRAGMENT : Nat := 0x04

def FLAG_FRAGMENT_END : Nat := 0x08

/-- `VideoPacket.is_keyframe`: `bool(self.flags & self.FLAG_KEYFRAME)`. -/
def is_keyframe (p : VideoPacket) : Bool := p.flags &&& FLAG_KEYFRAME != 0

/-- `VideoPacket.is_fragment`: `bool(self.flags & self.FLAG_FRAGMENT)`. -/
def is_fragment (p : VideoPacket) : Bool := p.flags &&& FLAG_FRAGMENT != 0

/-- `VideoPacket.is_last_fragment`: `bool(self.flags & self.FLAG_FRAGMENT_END)`. -/
def is_last_fragment (p : VideoPacket) : Bool := p.flags &&& FLAG_FRAGMENT_END != 0

end VideoPacket

/-! ## Fragmenter / reassembler (`protocol.py`, `fragment_video_frame` /
`reassemble_video_frame`) -/

/-- `fragment_video_frame(frame_data, frame_index, timestamp, is_keyframe,
max_payload_size, seq_start)`: split `frameData` into
`(len + max_payload - 1) // max_payload` consecutive slices of at most
`maxPayloadSize` bytes; fragment `i` gets `seq_num = seq_start + i`.
`FLAG_KEYFRAME` is set on every fragment of a keyframe; `FLAG_FRAGMENT`
(and, on the last fragment, `FLAG_FRAGMENT_END`) only when
`total_fragments > 1`.  Python's slice `frame_data[start:min(start+m, total)]`
is `(frameData.drop start).take m`. -/
def fragFlags (isKeyframe : Bool) (totalFragments i : Nat) : Nat :=
  (if isKeyframe then VideoPacket.FLAG_KEYFRAME else 0) |||
  (if totalFragments > 1 then
    VideoPacket.FLAG_FRAGMENT |||
      (if i = totalFragments - 1 then VideoPacket.FLAG_FRAGMENT_END else 0)
   else 0)

def fragment_video_frame (frameData : List Nat) (frameIndex : Nat) (tsMs : Nat)
    (isKeyframe : Bool) (maxPayloadSize : Nat) (seqStart : Nat) : List VideoPacket :=
  let totalSize := frameData.length
  let totalFragments := (totalSize + maxPayloadSize - 1) / maxPayloadSize
  (List.range totalFragments).map (fun i =>
    let start := i * maxPayloadSize
    { seqNum := seqStart + i
      tsMs := tsMs
      flags := fragFlags isKeyframe totalFragments i
      payload := (frameData.drop start).take maxPayloadSize
      frameIndex := frameIndex
      fragmentIndex := i
      totalFragments := totalFragments })

/-- The dictionary returned by `reassemble_video_frame` on success. -/
structure Frame where
  data : List Nat
  tsMs : Nat
  frameIndex : Nat
  isKeyframe : Bool
  deriving Repr, DecidableEq

/-- The relation `fragments.sort(key=lambda x: x.fragment_index)` sorts by:
fragment index order.  Python's `list.sort` is stable, as is
`List.insertionSort` with this relation. -/
def fragIdxLe (a b : VideoPacket) : Prop := a.fragmentIndex ≤ b.fragmentIndex

instance : DecidableRel fragIdxLe := fun a b => Nat.decLe _ _

/-- The loop `for i, fragment in enumerate(fragments): if
fragment.fragment_index != i: return None`, starting at counter `k`. -/
def checkIndices : List VideoPacket → Nat → Bool
  | [], _ => true
  | f :: fs, k => f.fragmentIndex == k && checkIndices fs (k + 1)

/-- `reassemble_video_frame(fragments)`: `None` for an empty list or when the
number of fragments differs from `fragments[0].total_fragments`; otherwise
sort by `fragment_index`, check the indices are exactly `0..n-1`, and join the
payloads.  The returned header fields are read from `fragments[0]` after the
in-place sort, i.e. from the fragment with the smallest index. -/
def reassemble_video_frame (fragments : List VideoPacket) : Option Frame :=
  match fragments with
  | [] => none
  | f0 :: rest =>
    if (f0 :: rest).length ≠ f0.totalFragments then none
    else
      let sorted := (f0 :: rest).insertionSort fragIdxLe
      if checkIndices sorted 0 then
        match sorted.head? with
        | none => none  -- unreachable: `sorted` is a permutation of a nonempty list
        | some s0 =>
          some { data := (sorted.map VideoPacket.payload).flatten
                 tsMs := s0.tsMs
                 frameIndex := s0.frameIndex
                 isKeyframe := s0.is_keyframe }
      else none

/-! ## Receiver-side frame assembly
(`client/network/transport_client.py`, `_handle_video_packet`,
`_cleanup_old_fragments`) -/

/-- The mutable client state touched by `_handle_video_packet`:
`frame_fragments` (an insertion-ordered dict `frame_index -> [fragments]`),
the bounded `frame_queue` (maxsize 30), and the frame counters. -/
structure ClientVideoState where
  frameFragments : List (Nat × List VideoPacket)
  frameQueue : List Frame
  completeFrames : Nat
  incompleteFrames : Nat
  droppedFrames : Nat
  receivedFrames : Nat
  deriving Repr, DecidableEq

def initClientVideoState : ClientVideoState :=
  { frameFragments := [], frameQueue := [], completeFrames := 0,
    incompleteFrames := 0, droppedFrames := 0, receivedFrames := 0 }

/-- Dictionary lookup in the insertion-ordered `frame_fragments` map. -/
def dictLookup (d : List (Nat × List VideoPacket)) (k : Nat) :
    Option (List VideoPacket) :=
  match d with
  | [] => none
  | (k0, v) :: rest => if k0 = k then some v else dictLookup rest k

/-- `if frame_index not in self.frame_fragments:
self.frame_fragments[frame_index] = []` followed by
`self.frame_fragments[frame_index].append(packet)`. -/
def addFragment (d : List (Nat × List VideoPacket)) (k : Nat) (p : VideoPacket) :
    List (Nat × List VideoPacket) :=
  match d with
  | [] => [(k, [p])]
  | (k0, v) :: rest =>
    if k0 = k then (k0, v ++ [p]) :: rest else (k0, v) :: addFragment rest k p

/-- `self.frame_fragments.pop(frame_index, None)`. -/
def dictPop (d : List (Nat × List VideoPacket)) (k : Nat) :
    List (Nat × List VideoPacket) :=
  d.filter (fun e => e.1 ≠ k)

/-- `_cleanup_old_fragments(keep_count)`: when more than `keep_count` frames
are buffered, pop the oldest frame indices (in sorted order) until only the
`keep_count` largest remain. -/
def cleanupOldFragments (d : List (Nat × List VideoPacket)) (keep : Nat) :
    List (Nat × List VideoPacket) :=
  if d.length ≤ keep then d
  else
    let sortedKeys := (d.map (·.1)).insertionSort (· ≤ ·)
    let toRemove := sortedKeys.take (sortedKeys.length - keep)
    d.filter (fun e => ¬ e.1 ∈ toRemove)

/-- `TransportClient._handle_video_packet(packet)`: append the fragment to the
frame's buffer unconditionally (no duplicate check), and only when the packet
carries `FLAG_FRAGMENT_END` try `reassemble_video_frame` on the whole buffer;
deliver on success (`frame_queue.put(block=False)` fails silently when the
queue holds 30 frames — `dropped_frames`), count `incomplete_frames` on
failure, then drop the buffer entry and clean up old frames. -/
def handle_video_packet (st : ClientVideoState) (p : VideoPacket) :
    ClientVideoState :=
  let fi := p.frameIndex
  let st1 := { st with frameFragments := addFragment st.frameFragments fi p }
  if p.is_last_fragment then
    let fragments := (dictLookup st1.frameFragments fi).getD []
    let st2 :=
      match reassemble_video_frame fragments with
      | some fr =>
        if st1.frameQueue.length < 30 then
          { st1 with frameQueue := st1.frameQueue ++ [fr]
                     completeFrames := st1.completeFrames + 1
                     receivedFrames := st1.receivedFrames + 1 }
        else
          { st1 with droppedFrames := st1.droppedFrames + 1 }
      | none => { st1 with incompleteFrames := st1.incompleteFrames + 1 }
    let st3 := { st2 with frameFragments := dictPop st2.frameFragments fi }
    { st3 with frameFragments := cleanupOldFragments st3.frameFragments 30 }
  else st1

/-- The receiver processing a sequence of arriving video packets. -/
def processPackets (ps : List VideoPacket) (st : ClientVideoState) :
    ClientVideoState :=
  ps.foldl handle_video_packet st

/-! ## Adaptive payload sizing
(`server/network/transport_server.py`, `_calculate_optimal_payload_size`) -/

/-- `loss_factor = 1.0 - min(0.5, packet_loss * 5)`. -/
def lossFactor (packetLoss : ℚ) : ℚ := 1 - min (1/2 : ℚ) (packetLoss * 5)

/-- `rtt_factor = 1.0`, or `max(0.7, 1.0 - (rtt - 200) / 1000)` when
`rtt > 200`. -/
def rttFactor (rtt : ℚ) : ℚ :=
  if rtt > 200 then max (7/10 : ℚ) (1 - (rtt - 200) / 1000) else 1

/-- `TransportServer._calculate_optimal_payload_size(network_stats)`:
`max(500, min(1400, int(1200 * loss_factor * rtt_factor)))`. -/
def calculate_optimal_payload_size (packetLoss rtt : ℚ) : ℤ :=
  let base_size : ℚ := 1200
  let optimal_size := pyInt (base_size * lossFactor packetLoss * rttFactor rtt)
  max 500 (min 1400 optimal_size)

/-- The claim's formula, following the spec's words: the clamp applied to the
real-valued product `1200 · loss_factor · rtt_factor`, with no truncation. -/
def specPayloadFormula (packetLoss rtt : ℚ) : ℚ :=
  max 500 (min 1400 (1200 * lossFactor packetLoss * rttFactor rtt))

/-- The claim's formula amended with the `int()` truncation the code
performs before clamping. -/
def specPayloadFormulaTrunc (packetLoss rtt : ℚ) : ℤ :=
  max 500 (min 1400 (pyInt (1200 * lossFactor packetLoss * rttFactor rtt)))

/-! ## ROI QP-delta map (`server/encoder/roi_detector.py`, `get_qp_delta_map`) -/

/-- One cell of `ROIDetector.get_qp_delta_map`:
`int((1.0 - self.roi_weights[j, i]) * max_delta)`. -/
def qpDeltaCell (w maxDelta : ℚ) : ℤ := pyInt ((1 - w) * maxDelta)

/-- `ROIDetector.get_qp_delta_map(base_qp, max_delta)`: map every cell of the
weight grid (`base_qp` is accepted but unused by the code). -/
def get_qp_delta_map (roiWeights : List (List ℚ)) (maxDelta : ℚ) :
    List (List ℤ) :=
  roiWeights.map (fun row => row.map (fun w => qpDeltaCell w maxDelta))

/-! ## Network quality classifier
(`common/network_utils/monitoring.py`, `NetworkClassifier`) -/

/-- The slice of `current_stats` the classifier reads. -/
structure NetStats where
  rtt : ℚ
  packetLoss : ℚ
  bandwidth : ℚ
  deriving Repr, DecidableEq

def NETWORK_TYPE_EXCELLENT : Nat := 0

def NETWORK_TYPE_GOOD : Nat := 1

def NETWORK_TYPE_FAIR : Nat := 2

def NETWORK_TYPE_POOR : Nat := 3

def NETWORK_TYPE_VERY_POOR : Nat := 4

/-- `NetworkClassifier._classify(stats)`: walk the thresholds from best to
worst and return the first class whose `rtt`/`packet_loss`/`bandwidth`
thresholds are all met, else VERY_POOR. -/
def classify (s : NetStats) : Nat :=
  if s.rtt ≤ 50 ∧ s.packetLoss ≤ 1/100 ∧ s.bandwidth ≥ 10000000 then
    NETWORK_TYPE_EXCELLENT
  else if s.rtt ≤ 100 ∧ s.packetLoss ≤ 2/100 ∧ s.bandwidth ≥ 5000000 then
    NETWORK_TYPE_GOOD
  else if s.rtt ≤ 200 ∧ s.packetLoss ≤ 5/100 ∧ s.bandwidth ≥ 2000000 then
    NETWORK_TYPE_FAIR
  else if s.rtt ≤ 300 ∧ s.packetLoss ≤ 1/10 ∧ s.bandwidth ≥ 1000000 then
    NETWORK_TYPE_POOR
  else NETWORK_TYPE_VERY_POOR

/-- `current_type` and `type_stability` of a `NetworkClassifier`.
`type_stability` is an integer: `update` briefly computes
`self.type_stability - 1` before clamping at zero. -/
structure ClassifierState where
  currentType : Nat
  typeStability : Int
  deriving Repr, DecidableEq

def TYPE_SWITCH_THRESHOLD : Int := 3

/-- `NetworkClassifier.__init__`: `current_type = GOOD`, `type_stability = 0`. -/
def initClassifier : ClassifierState :=
  { currentType := NETWORK_TYPE_GOOD, typeStability := 0 }

/-- `NetworkClassifier.update(stats)`: an agreeing sample raises
`type_stability` (capped at `TYPE_SWITCH_THRESHOLD`); a disagreeing sample
lowers it, and when it reaches 0 the class switches to the sample's class
with the counter reset to 0. -/
def classifierUpdate (st : ClassifierState) (s : NetStats) : ClassifierState :=
  if classify s = st.currentType then
    { st with typeStability := min (st.typeStability + 1) TYPE_SWITCH_THRESHOLD }
  else if st.typeStability - 1 ≤ 0 then
    { currentType := classify s, typeStability := 0 }
  else
    { st with typeStability := st.typeStability - 1 }

/-- `NetworkClassifier.get_network_type()`. -/
def get_network_type (st : ClassifierState) : Nat := st.currentType

/-! ## FEC (`protocol.py`, `FECPacket._compute_fec`;
`client/network/transport_client.py`, `_handle_fec_packet`) -/

/-- In-memory state of an `FECPacket` as the receiver sees it
(`block_index`, `source_seq_nums`, `fec_data`). -/
structure FECPacket where
  seqNum : Nat
  tsMs : Nat
  blockIndex : Nat
  sourceSeqNums : List Nat
  fecData : List Nat
  deriving Repr, DecidableEq

/-- The inner loop of `_compute_fec`:
`for i in range(len(packet.payload)): fec_data[i] ^= packet.payload[i]`.
The accumulator is always at least as long as the payload where the code
calls this (`fec_data` starts at the block's maximum payload size); the
`[] , _ :: _` branch is unreachable there. -/
def xorInto : List Nat → List Nat → List Nat
  | acc, [] => acc
  | [], _ :: _ => []
  | a :: acc, b :: p => (a ^^^ b) :: xorInto acc p

/-- `FECPacket._compute_fec(packets)`: byte-wise XOR of all payloads into a
zero buffer of the maximum payload length (`b''` for no packets). -/
def compute_fec (packets : List VideoPacket) : List Nat :=
  match packets with
  | [] => []
  | _ :: _ =>
    let maxSize := (packets.map (fun p => p.payload.length)).foldr max 0
    packets.foldl (fun acc p => xorInto acc p.payload) (List.replicate maxSize 0)

/-- `TransportClient._handle_fec_packet(packet)`: the body is a TODO stub
(`pass`), so the client state is returned unchanged for every FEC packet. -/
def handle_fec_packet (st : ClientVideoState) (p : FECPacket) :
    ClientVideoState :=
  st

/-- Modelled from the spec: the FEC recovery procedure is absent from the
source (`TransportClient._handle_fec_packet` is a TODO stub), so the
reconstruction the spec describes is modelled here from its words:
"reconstruct it by XORing the parity with the remaining k−1 source payloads,
truncated to the reconstructed packet's declared payload length". -/
def recover_xor (parity : List Nat) (receivedPayloads : List (List Nat))
    (declaredLen : Nat) : List Nat :=
  (receivedPayloads.foldl xorInto parity).take declaredLen

/-- Byte-wise XOR of two byte strings, the shorter treated as zero-padded:
the algebra underlying `_compute_fec`'s accumulator updates. -/
def xorPad : List Nat → List Nat → List Nat
  | [], ys => ys
  | x :: xs, [] => x :: xs
  | x :: xs, y :: ys => (x ^^^ y) :: xorPad xs ys

/-- XOR of a whole FEC block of payloads. -/
def bigXor (l : List (List Nat)) : List Nat := l.foldr xorPad []

/-! ## Sender-side NACK handling
(`server/network/transport_server.py`, `__init__` / `_handle_nack`) -/

/-- A JSON-ish value as carried by control packets (`ctrl_data`).  Object
keys are byte strings (UTF-8 of the Python `str` keys). -/
inductive Json where
  | jnull : Json
  | jbool : Bool → Json
  | jnum : Int → Json
  | jstr : List Nat → Json
  | jarr : List Json → Json
  | jobj : List (List Nat × Json) → Json
  deriving Repr

/-- The ASCII bytes of a key string. -/
def asciiBytes (s : String) : List Nat := s.toList.map Char.toNat

/-- Lookup of a key in a JSON object (`ctrl_data.get(key, default)`);
`none` when the value is not an object or lacks the key. -/
def jsonGet (j : Json) (key : List Nat) : Option Json :=
  match j with
  | Json.jobj fields => lookupField fields
  | _ => none
where
  lookupField : List (List Nat × Json) → Option Json
    | [] => none
    | (k, v) :: rest => if k = key then some v else lookupField rest

/-- The mutable server state `_handle_nack` could touch: the send queue and
the transmit counters from `TransportServer.__init__`.  Note `__init__`
creates no send cache of transmitted packets: `send_queue`,
`receive_queue`, `clients`, `fec_buffer`, `next_seq_num` and `stats` are the
only packet-related fields. -/
structure ServerSendState where
  sendQueue : List BasePacket
  nextSeqNum : Nat
  sentPackets : Nat
  deriving Repr, DecidableEq

/-- `TransportServer._handle_nack(packet, addr)`: returns early when
`ctrl_data` is absent or empty, or `missing_seqs` is absent or empty;
otherwise it only prints (`# TODO: 实现重传逻辑` — the retransmission logic
is an unimplemented TODO).  No branch touches the server state. -/
def handle_nack (st : ServerSendState) (ctrlData : Json) : ServerSendState :=
  match ctrlData with
  | Json.jobj [] => st
  | _ =>
    match jsonGet ctrlData (asciiBytes "missing_seqs") with
    | some (Json.jarr []) => st
    | some (Json.jarr (_ :: _)) => st  -- only `print(...)` in the source
    | _ => st

/-! ## Server-side client-stats handling
(`server/network/transport_server.py`, `_handle_client_stats`;
`common/network_utils/monitoring.py`, `NetworkMonitor`) -/

/-- The methods `class NetworkMonitor` defines
(`common/network_utils/monitoring.py`). -/
def networkMonitorMethods : List String :=
  ["__init__", "packet_sent", "packet_received", "_update_stats",
   "get_current_stats", "get_network_type", "predict_network_stats",
   "update_queue_size", "get_congestion_level"]

/-- Outcome of a handler call: normal return, or an uncaught
`AttributeError` naming the missing attribute (which propagates to the
receive loop's generic `except Exception` handler). -/
inductive HandlerResult where
  | ok : HandlerResult
  | attributeError : String → HandlerResult
  deriving Repr, DecidableEq

/-- `TransportServer._handle_client_stats(packet, addr)`: returns early when
`ctrl_data` is empty; otherwise, when both `"rtt"` and `"packet_loss"` are
keys of `ctrl_data`, evaluates `self.network_monitor.update_from_client({...})`
— an attribute lookup on the `NetworkMonitor` instance, raising
`AttributeError` when the class defines no such method. -/
def handle_client_stats (ctrlDataKeys : List String) : HandlerResult :=
  if ctrlDataKeys = [] then HandlerResult.ok
  else if "rtt" ∈ ctrlDataKeys ∧ "packet_loss" ∈ ctrlDataKeys then
    if "update_from_client" ∈ networkMonitorMethods then HandlerResult.ok
    else HandlerResult.attributeError "update_from_client"
  else HandlerResult.ok

/-! ## Wire format (`protocol.py`, `Packet.serialize` / `Packet.deserialize`
and the per-class `from_base` constructors)

`struct.pack`/`struct.unpack` with format `"!BIQBI"` (big-endian).  Packing
here is modulo `256^w`; `struct.pack` instead raises for out-of-range values,
so round-trip statements carry the corresponding bounds, and concrete inputs
are in range. -/

/-- `w` bytes, big-endian, of `n` (modulo `256^w`). -/
def toBytesBE : Nat → Nat → List Nat
  | 0, _ => []
  | w + 1, n => toBytesBE w (n / 256) ++ [n % 256]

/-- Big-endian bytes to a number (`struct.unpack` of an unsigned field). -/
def fromBE (l : List Nat) : Nat := l.foldl (fun a b => a * 256 + b) 0

/-- The 18-byte header `type(1B) + seq(4B) + timestamp(8B) + flags(1B) +
size(4B)`. -/
def packHeader (ptype seq tsMs flags payloadLen : Nat) : List Nat :=
  toBytesBE 1 ptype ++ toBytesBE 4 seq ++ toBytesBE 8 tsMs ++
    toBytesBE 1 flags ++ toBytesBE 4 payloadLen

/-- `Packet.serialize`: header followed by the payload. -/
def BasePacket.serialize (p : BasePacket) : List Nat :=
  packHeader p.packetType p.seqNum p.tsMs p.flags p.payload.length ++ p.payload

/-- `VideoPacket.serialize`: the base header over the combined payload
`video_header (frame_index 4B, fragment_index 2B, total_fragments 2B) +
payload`. -/
def VideoPacket.serialize (p : VideoPacket) : List Nat :=
  let combined := toBytesBE 4 p.frameIndex ++ toBytesBE 2 p.fragmentIndex ++
    toBytesBE 2 p.totalFragments ++ p.payload
  packHeader PACKET_TYPE_VIDEO p.seqNum p.tsMs p.flags combined.length ++ combined

/-- Decimal ASCII digits of a natural number (`fuel`-bounded; `fuel > n`
suffices). -/
def natDigitsAux : Nat → Nat → List Nat
  | 0, _ => []
  | fuel + 1, n => if n < 10 then [48 + n] else natDigitsAux fuel (n / 10) ++ [48 + n % 10]

def natDigitsBytes (n : Nat) : List Nat := natDigitsAux (n + 1) n

/-- Decimal ASCII of an integer, as Python prints it. -/
def intBytes : Int → List Nat
  | Int.ofNat n => natDigitsBytes n
  | Int.negSucc m => 45 :: natDigitsBytes (m + 1)

/-- `", "` and `": "`, `json.dumps`' default separators. -/
def commaSpace : List Nat := [44, 32]

/-- `json.dumps` with Python's defaults, on the JSON subset the transport
emits (no escaping is needed for the keys and strings it produces). -/
def jsonDumps : Json → List Nat
  | Json.jnull => asciiBytes "null"
  | Json.jbool true => asciiBytes "true"
  | Json.jbool false => asciiBytes "false"
  | Json.jnum n => intBytes n
  | Json.jstr s => [34] ++ s ++ [34]
  | Json.jarr xs => [91] ++ dumpArr xs ++ [93]
  | Json.jobj fields => [123] ++ dumpObj fields ++ [125]
where
  dumpArr : List Json → List Nat
    | [] => []
    | [x] => jsonDumps x
    | x :: y :: rest => jsonDumps x ++ commaSpace ++ dumpArr (y :: rest)
  dumpObj : List (List Nat × Json) → List Nat
    | [] => []
    | [(k, v)] => [34] ++ k ++ [34] ++ [58, 32] ++ jsonDumps v
    | (k, v) :: f :: rest =>
      [34] ++ k ++ [34] ++ [58, 32] ++ jsonDumps v ++ commaSpace ++ dumpObj (f :: rest)

/-- JSON whitespace skipping. -/
def skipWs : List Nat → List Nat
  | c :: rest => if c = 32 ∨ c = 9 ∨ c = 10 ∨ c = 13 then skipWs rest else c :: rest
  | [] => []

def isDigit (c : Nat) : Bool := decide (48 ≤ c ∧ c ≤ 57)

/-- Parse a run of decimal digits onto an accumulator. -/
def parseDigits : List Nat → Nat → (Nat × List Nat)
  | c :: rest, acc =>
    if isDigit c then parseDigits rest (acc * 10 + (c - 48)) else (acc, c :: rest)
  | [], acc => (acc, [])

/-- Parse the body of a JSON string after the opening quote (the transport
never emits escape sequences, which this subset rejects). -/
def parseStrBytes : List Nat → Option (List Nat × List Nat)
  | [] => none
  | c :: rest =>
    if c = 34 then some ([], rest)
    else if c = 92 then none
    else (parseStrBytes rest).map (fun p => (c :: p.1, p.2))

mutual

/-- `json.loads`' recursive-descent value parser on the transport's JSON
subset (objects, arrays, unescaped strings, integers, booleans, null);
the fuel is a recursion bound, with any `fuel > length` sufficient. -/
def parseValue : Nat → List Nat → Option (Json × List Nat)
  | 0, _ => none
  | fuel + 1, s =>
    match skipWs s with
    | [] => none
    | c :: rest =>
      if c = 110 then
        match rest with
        | 117 :: 108 :: 108 :: r => some (Json.jnull, r)
        | _ => none
      else if c = 116 then
        match rest with
        | 114 :: 117 :: 101 :: r => some (Json.jbool true, r)
        | _ => none
      else if c = 102 then
        match rest with
        | 97 :: 108 :: 115 :: 101 :: r => some (Json.jbool false, r)
        | _ => none
      else if c = 34 then
        (parseStrBytes rest).map (fun p => (Json.jstr p.1, p.2))
      else if c = 91 then
        match skipWs rest with
        | 93 :: r => some (Json.jarr [], r)
        | s2 => (parseElems fuel s2).map (fun p => (Json.jarr p.1, p.2))
      else if c = 123 then
        match skipWs rest with
        | 125 :: r => some (Json.jobj [], r)
        | s2 => (parseMembers fuel s2).map (fun p => (Json.jobj p.1, p.2))
      else if c = 45 then
        match rest with
        | d :: r2 =>
          if isDigit d then
            let p := parseDigits r2 (d - 48)
            some (Json.jnum (-(p.1 : Int)), p.2)
          else none
        | [] => none
      else if isDigit c then
        let p := parseDigits rest (c - 48)
        some (Json.jnum (p.1 : Int), p.2)
      else none

/-- Array elements `value (',' value)* ']'`. -/
def parseElems : Nat → List Nat → Option (List Json × List Nat)
  | 0, _ => none
  | fuel + 1, s =>
    match parseValue fuel s with
    | none => none
    | some (v, r) =>
      match skipWs r with
      | 44 :: r2 => (parseElems fuel r2).map (fun p => (v :: p.1, p.2))
      | 93 :: r2 => some ([v], r2)
      | _ => none

/-- Object members `'"' key '"' ':' value (',' member)* '}'`. -/
def parseMembers : Nat → List Nat → Option (List (List Nat × Json) × List Nat)
  | 0, _ => none
  | fuel + 1, s =>
    match skipWs s with
    | 34 :: rest =>
      match parseStrBytes rest with
      | none => none
      | some (k, r) =>
        match skipWs r with
        | 58 :: r2 =>
          match parseValue fuel r2 with
          | none => none
          | some (v, r3) =>
            match skipWs r3 with
            | 44 :: r4 => (parseMembers fuel r4).map (fun p => ((k, v) :: p.1, p.2))
            | 125 :: r4 => some ([(k, v)], r4)
            | _ => none
        | _ => none
    | _ => none

end


/-- `json.loads(bytes)`: parse one value and require only whitespace after
it (`Extra data` otherwise). -/
def jsonLoads (s : List Nat) : Option Json :=
  match parseValue (s.length + 1) s with
  | some (v, rest) => if skipWs rest = [] then some v else none
  | none => none

/-- In-memory state of a `ControlPacket`: base fields with
`packet_type = CONTROL`, `flags = 0`, plus `ctrl_type` and `ctrl_data`
(`payload` is `json.dumps(ctrl_data)` — NOT including `ctrl_type`). -/
structure ControlPacket where
  seqNum : Nat
  tsMs : Nat
  ctrlType : Nat
  ctrlData : Json
  deriving Repr

def CTRL_TYPE_ACK : Nat := 0

def CTRL_TYPE_NACK : Nat := 1

def CTRL_TYPE_STATS : Nat := 2

def CTRL_TYPE_CONFIG : Nat := 3

/-- `ControlPacket.__init__` sets `self.payload = json.dumps(self.ctrl_data)
.encode()`; `ctrl_type` is stored only as an attribute and never written
into the payload. -/
def ControlPacket.payloadBytes (p : ControlPacket) : List Nat :=
  jsonDumps p.ctrlData

/-- `ControlPacket.serialize` is the inherited `Packet.serialize` over that
payload (`flags = 0`). -/
def ControlPacket.serialize (p : ControlPacket) : List Nat :=
  packHeader PACKET_TYPE_CONTROL p.seqNum p.tsMs 0 p.payloadBytes.length ++
    p.payloadBytes

/-- `ControlPacket.from_base`: `None` on an empty payload, else
`ctrl_type = payload[0]` and `ctrl_data = json.loads(payload[1:])`, with the
bare `except:` turning any parse failure into `{}`. -/
def ControlPacket.from_base (b : BasePacket) : Option ControlPacket :=
  match b.payload with
  | [] => none
  | c :: rest =>
    some { seqNum := b.seqNum, tsMs := b.tsMs, ctrlType := c,
           ctrlData := (jsonLoads rest).getD (Json.jobj []) }

/-- In-memory state of a `HeartbeatPacket`: base fields with
`packet_type = HEARTBEAT`, `flags = 0`, plus `client_stats`
(`payload = json.dumps(client_stats)`). -/
structure HeartbeatPacket where
  seqNum : Nat
  tsMs : Nat
  clientStats : Json
  deriving Repr

def HeartbeatPacket.payloadBytes (p : HeartbeatPacket) : List Nat :=
  jsonDumps p.clientStats

def HeartbeatPacket.serialize (p : HeartbeatPacket) : List Nat :=
  packHeader PACKET_TYPE_HEARTBEAT p.seqNum p.tsMs 0 p.payloadBytes.length ++
    p.payloadBytes

/-- `HeartbeatPacket.from_base`: `client_stats = json.loads(payload)`, `{}`
on failure. -/
def HeartbeatPacket.from_base (b : BasePacket) : HeartbeatPacket :=
  { seqNum := b.seqNum, tsMs := b.tsMs,
    clientStats := (jsonLoads b.payload).getD (Json.jobj []) }

/-- `VideoPacket.from_base`: `None` when the payload is shorter than the
8-byte video header, else unpack `"!IHH"` and take the rest as the video
payload. -/
def VideoPacket.from_base (b : BasePacket) : Option VideoPacket :=
  if b.payload.length < 8 then none
  else some
    { seqNum := b.seqNum, tsMs := b.tsMs, flags := b.flags,
      payload := b.payload.drop 8,
      frameIndex := fromBE (b.payload.take 4),
      fragmentIndex := fromBE ((b.payload.drop 4).take 2),
      totalFragments := fromBE ((b.payload.drop 6).take 2) }

/-- The `for i in range(num_source_packets)` loop of `FECPacket.from_base`:
unpack consecutive 4-byte seq nums from offset 6, `break`ing when the next
one would run past the payload. -/
def fecSourceSeqNums (payload : List Nat) : Nat → Nat → List Nat
  | 0, _ => []
  | n + 1, offset =>
    if offset + 4 > payload.length then []
    else fromBE ((payload.drop offset).take 4) ::
      fecSourceSeqNums payload n (offset + 4)

/-- `FECPacket.from_base`: `None` when shorter than the 6-byte FEC header,
else unpack `block_index (4B)`, `num_source_packets (2B)`, the seq nums, and
the FEC data from offset `6 + 4·num` (empty when the offset is not below the
payload length). -/
def FECPacket.from_base (b : BasePacket) : Option FECPacket :=
  if b.payload.length < 6 then none
  else some
    { seqNum := b.seqNum, tsMs := b.tsMs,
      blockIndex := fromBE (b.payload.take 4),
      sourceSeqNums :=
        fecSourceSeqNums b.payload (fromBE ((b.payload.drop 4).take 2)) 6,
      fecData :=
        if 6 + (fromBE ((b.payload.drop 4).take 2)) * 4 < b.payload.length then
          b.payload.drop (6 + (fromBE ((b.payload.drop 4).take 2)) * 4)
        else [] }

/-- The result of `Packet.deserialize`: one of the concrete packet classes,
or a base `Packet` for an unrecognized type. -/
inductive PacketV where
  | base : BasePacket → PacketV
  | video : VideoPacket → PacketV
  | control : ControlPacket → PacketV
  | fec : FECPacket → PacketV
  | heartbeat : HeartbeatPacket → PacketV
  deriving Repr

/-- The header/length parsing of `Packet.deserialize`: `None` when shorter
than the 18-byte header or than `header + declared payload size`; the
payload is the declared slice. -/
def deserializeBase (data : List Nat) : Option BasePacket :=
  if data.length < 18 then none
  else
    let payloadSize := fromBE ((data.drop 14).take 4)
    if data.length < 18 + payloadSize then none
    else some
      { packetType := fromBE (data.take 1),
        seqNum := fromBE ((data.drop 1).take 4),
        tsMs := fromBE ((data.drop 5).take 8),
        flags := fromBE ((data.drop 13).take 1),
        payload := (data.drop 18).take payloadSize }

/-- `Packet.deserialize(data)`: parse the base packet and dispatch on
`packet_type` to the class-specific `from_base`. -/
def Packet.deserialize (data : List Nat) : Option PacketV :=
  match deserializeBase data with
  | none => none
  | some b =>
    if b.packetType = PACKET_TYPE_VIDEO then
      (VideoPacket.from_base b).map PacketV.video
    else if b.packetType = PACKET_TYPE_CONTROL then
      (ControlPacket.from_base b).map PacketV.control
    else if b.packetType = PACKET_TYPE_FEC then
      (FECPacket.from_base b).map PacketV.fec
    else if b.packetType = PACKET_TYPE_HEARTBEAT then
      some (PacketV.heartbeat (HeartbeatPacket.from_base b))
    else some (PacketV.base b)

/-! ## Theorems -/

/-! ### Chunking lemmas for the fragmenter -/

/-- The fragment count of a nonempty frame is positive. -/
theorem chunks_length_pos (mp : Nat) (F : List Nat) (hmp : 0 < mp) (hF : F ≠ []) :
    0 < (F.length + mp - 1) / mp := by
  have hlen : 0 < F.length := List.length_pos.mpr hF
  exact Nat.div_pos (by omega) hmp

/-- The fragment count splits off one chunk: for a nonempty frame it is
one more than the fragment count of the frame with its first chunk removed. -/
theorem chunks_count_succ (mp : Nat) (F : List Nat) (hmp : 0 < mp)
    (hF : 0 < F.length) :
    (F.length + mp - 1) / mp = (F.length - 1) / mp + 1 := by
  have hx : F.length + mp - 1 = (F.length - 1) + mp := by omega
  rw [hx, Nat.add_div_right _ hmp]

/-- Concatenating the `max_payload`-sized chunks of `F` gives back `F`. -/
theorem chunks_join (mp : Nat) (hmp : 0 < mp) (F : List Nat) :
    ((List.range ((F.length + mp - 1) / mp)).map
      (fun i => (F.drop (i * mp)).take mp)).flatten = F := by
  suffices h : ∀ N (F : List Nat), F.length ≤ N →
      ((List.range ((F.length + mp - 1) / mp)).map
        (fun i => (F.drop (i * mp)).take mp)).flatten = F from h F.length F le_rfl
  intro N
  induction N with
  | zero =>
    intro F hF
    have h0 : F = [] := List.eq_nil_of_length_eq_zero (by omega)
    subst h0
    have hz : (List.length ([] : List Nat) + mp - 1) / mp = 0 := by
      simp only [List.length_nil]
      exact Nat.div_eq_of_lt (by omega)
    rw [hz]
    simp
  | succ N ih =>
    intro F hF
    by_cases hFe : F = []
    · subst hFe
      have hz : (List.length ([] : List Nat) + mp - 1) / mp = 0 := by
        simp only [List.length_nil]
        exact Nat.div_eq_of_lt (by omega)
      rw [hz]
      simp
    · have hFpos : 0 < F.length := List.length_pos.mpr hFe
      rw [chunks_count_succ mp F hmp hFpos, List.range_succ_eq_map]
      simp only [List.map_cons, List.map_map, List.flatten_cons, Nat.zero_mul,
        List.drop_zero]
      have hlen' : (F.drop mp).length ≤ N := by
        rw [List.length_drop]
        omega
      have hrec := ih (F.drop mp) hlen'
      have hrecn : ((F.drop mp).length + mp - 1) / mp = (F.length - 1) / mp := by
        rw [List.length_drop]
        rcases Nat.lt_or_ge F.length mp with hlt | hge
        · have h1 : F.length - mp + mp - 1 = mp - 1 := by omega
          rw [h1, Nat.div_eq_of_lt (by omega), Nat.div_eq_of_lt (by omega)]
        · have h1 : F.length - mp + mp - 1 = F.length - 1 := by omega
          rw [h1]
      rw [hrecn] at hrec
      have hcomp : ((List.range ((F.length - 1) / mp)).map
            ((fun i => (F.drop (i * mp)).take mp) ∘ (· + 1)))
          = (List.range ((F.length - 1) / mp)).map
            (fun i => ((F.drop mp).drop (i * mp)).take mp) := by
        apply List.map_congr_left
        intro i _
        simp only [Function.comp_apply]
        rw [List.drop_drop]
        have harith : (i + 1) * mp = mp + i * mp := by ring
        rw [harith]
      rw [hcomp, hrec]
      exact List.take_append_drop mp F

/-! ### Index-check lemmas for the reassembler -/

theorem checkIndices_le (l : List VideoPacket) :
    ∀ k, checkIndices l k = true → ∀ x ∈ l, k ≤ x.fragmentIndex := by
  induction l with
  | nil => intro k _ x hx; cases hx
  | cons f fs ih =>
    intro k hk x hx
    simp only [checkIndices, Bool.and_eq_true, beq_iff_eq] at hk
    rcases List.mem_cons.mp hx with h | h
    · subst h; omega
    · have := ih (k + 1) hk.2 x h; omega

/-- A list passing the enumerate-check is sorted by fragment index. -/
theorem checkIndices_sorted (l : List VideoPacket) :
    ∀ k, checkIndices l k = true → l.Sorted fragIdxLe := by
  induction l with
  | nil => intro _ _; exact List.sorted_nil
  | cons f fs ih =>
    intro k hk
    simp only [checkIndices, Bool.and_eq_true, beq_iff_eq] at hk
    refine List.sorted_cons.mpr ⟨?_, ih (k + 1) hk.2⟩
    intro x hx
    have := checkIndices_le fs (k + 1) hk.2 x hx
    show f.fragmentIndex ≤ x.fragmentIndex
    omega

theorem checkIndices_map_range (g : Nat → VideoPacket)
    (hg : ∀ i, (g i).fragmentIndex = i) :
    ∀ n k, checkIndices ((List.range' k n).map g) k = true := by
  intro n
  induction n with
  | zero => intro k; rfl
  | succ n ih =>
    intro k
    rw [List.range'_succ, List.map_cons]
    simp only [checkIndices, Bool.and_eq_true, beq_iff_eq]
    exact ⟨hg k, ih (k + 1)⟩

/-- Evaluation of `reassemble_video_frame` on a list that is already in
fragment-index order, has indices exactly `0..n-1`, and whose first element
declares the right `total_fragments`. -/
theorem reassemble_of_checkIndices (l : List VideoPacket) (f0 : VideoPacket)
    (hhead : l.head? = some f0)
    (htot : f0.totalFragments = l.length)
    (hidx : checkIndices l 0 = true) :
    reassemble_video_frame l =
      some { data := (l.map VideoPacket.payload).flatten
             tsMs := f0.tsMs
             frameIndex := f0.frameIndex
             isKeyframe := f0.is_keyframe } := by
  match l, hhead with
  | a :: rest, hhead =>
    have ha : a = f0 := by simpa using hhead
    subst ha
    have hsort : (a :: rest).insertionSort fragIdxLe = a :: rest :=
      List.Sorted.insertionSort_eq (checkIndices_sorted _ 0 hidx)
    show reassemble_video_frame (a :: rest) = _
    simp only [reassemble_video_frame, hsort, hidx, List.head?_cons, if_true]
    rw [if_neg (show ¬((a :: rest).length ≠ a.totalFragments) from by
      rw [htot]; exact fun h => h rfl)]

/-- The fragmenter, written as a `map` over the fragment indices. -/
theorem fragment_eq_map (F : List Nat) (fi ts : Nat) (kf : Bool) (mp seq : Nat) :
    fragment_video_frame F fi ts kf mp seq =
      (List.range ((F.length + mp - 1) / mp)).map (fun i =>
        { seqNum := seq + i
          tsMs := ts
          flags := fragFlags kf ((F.length + mp - 1) / mp) i
          payload := (F.drop (i * mp)).take mp
          frameIndex := fi
          fragmentIndex := i
          totalFragments := (F.length + mp - 1) / mp }) := rfl

/-- The keyframe bit of the flags the fragmenter assigns is exactly the
`is_keyframe` argument. -/
theorem fragFlags_keyframe_bit (kf : Bool) (n i : Nat) :
    (fragFlags kf n i &&& VideoPacket.FLAG_KEYFRAME != 0) = kf := by
  have h4 : ∀ x : Nat, x = 0 ∨ x = 4 ∨ x = 12 →
      ((((if kf then 1 else 0) ||| x) &&& 1 != 0) = kf) := by
    intro x hx
    rcases kf with _ | _ <;> rcases hx with h | h | h <;> subst h <;> decide
  unfold fragFlags VideoPacket.FLAG_KEYFRAME VideoPacket.FLAG_FRAGMENT
    VideoPacket.FLAG_FRAGMENT_END
  apply h4
  split_ifs <;> simp

/-- C1 (amended): for every nonempty frame `F`, every
`max_payload ∈ [500, 1400]`, and header fields within the ranges the packed
video header admits (`total_fragments < 2^16`, `frame_index < 2^32`),
reassembling the fragments of `F` returns exactly the frame
`{data := F, timestamp, frame_index, is_keyframe}`; in particular the
concatenation of the fragment payloads in fragment-index order is `F`,
byte for byte. -/
theorem fragment_reassemble_roundtrip (F : List Nat) (fi ts : Nat) (kf : Bool)
    (mp seq : Nat) (hF : F ≠ []) (hmp1 : 500 ≤ mp) (hmp2 : mp ≤ 1400)
    (hfrag : (F.length + mp - 1) / mp < 65536) (hfi : fi < 4294967296) :
    reassemble_video_frame (fragment_video_frame F fi ts kf mp seq) =
      some { data := F, tsMs := ts, frameIndex := fi, isKeyframe := kf } := by
  have hmp : 0 < mp := by omega
  have hnpos : 0 < (F.length + mp - 1) / mp := chunks_length_pos mp F hmp hF
  rw [fragment_eq_map]
  set n := (F.length + mp - 1) / mp with hn
  set g : Nat → VideoPacket := fun i =>
    { seqNum := seq + i
      tsMs := ts
      flags := fragFlags kf n i
      payload := (F.drop (i * mp)).take mp
      frameIndex := fi
      fragmentIndex := i
      totalFragments := n } with hg
  have hhead : ((List.range n).map g).head? = some (g 0) := by
    obtain ⟨m, hm⟩ : ∃ m, n = m + 1 := ⟨n - 1, by omega⟩
    rw [hm, List.range_succ_eq_map]
    rfl
  have hlen : ((List.range n).map g).length = n := by
    rw [List.length_map, List.length_range]
  have htot : (g 0).totalFragments = ((List.range n).map g).length := by
    rw [hlen]
  have hidx : checkIndices ((List.range n).map g) 0 = true := by
    rw [List.range_eq_range']
    exact checkIndices_map_range g (fun i => rfl) n 0
  rw [reassemble_of_checkIndices ((List.range n).map g) (g 0) hhead htot hidx]
  congr 1
  have hdata : (((List.range n).map g).map VideoPacket.payload).flatten = F := by
    rw [List.map_map]
    exact chunks_join mp hmp F
  have hkf : (g 0).is_keyframe = kf := by
    show (fragFlags kf n 0 &&& VideoPacket.FLAG_KEYFRAME != 0) = kf
    exact fragFlags_keyframe_bit kf n 0
  simp only [hg, Frame.mk.injEq]
  exact ⟨hdata, trivial, trivial, hkf⟩

/-- C1 counterexample: for the empty byte string, `fragment_video_frame`
produces no packets at all and `reassemble_video_frame` on that list returns
`None`, not a frame whose `data` field is the empty byte string. -/
theorem fragment_roundtrip_fails_on_empty_frame :
    fragment_video_frame [] 0 0 false 1400 0 = [] ∧
    reassemble_video_frame (fragment_video_frame [] 0 0 false 1400 0) = none ∧
    ∀ fr : Frame, reassemble_video_frame (fragment_video_frame [] 0 0 false 1400 0)
      ≠ some fr := by
  refine ⟨rfl, rfl, ?_⟩
  intro fr h
  simp [reassemble_video_frame, fragment_video_frame] at h

/-- Witness for the amended C1 round-trip theorem at a concrete input. -/
theorem fragment_reassemble_roundtrip_witness :
    reassemble_video_frame (fragment_video_frame [10, 20, 30] 7 9 true 500 3) =
      some { data := [10, 20, 30], tsMs := 9, frameIndex := 7, isKeyframe := true } :=
  fragment_reassemble_roundtrip [10, 20, 30] 7 9 true 500 3
    (by decide) (by decide) (by decide) (by decide) (by decide)

/-- C7: a frame that fits in one `max_payload` fragments into exactly one
`VideoPacket`, but with `flags = 0` when it is not a keyframe: the
`FLAGMENT` bit is clear as the claim says, yet the `FRAGMENT_END` bit is
also clear (the `if total_fragments > 1` guard in `fragment_video_frame`
gates `FLAG_FRAGMENT_END` too), contradicting the claim that the single
packet carries `FRAGMENT_END`. -/
theorem single_fragment_has_no_end_flag :
    fragment_video_frame [42] 0 0 false 1400 0 =
      [{ seqNum := 0, tsMs := 0, flags := 0, payload := [42],
         frameIndex := 0, fragmentIndex := 0, totalFragments := 1 }] ∧
    ((fragment_video_frame [42] 0 0 false 1400 0).map
      VideoPacket.is_last_fragment) = [false] ∧
    ((fragment_video_frame [42] 0 0 false 1400 0).map
      VideoPacket.is_fragment) = [false] := by
  decide

/-! ### C8: duplicate fragments -/

/-- A fragment list passing the enumerate-check has fragment indices exactly
`k, k+1, ...` in order. -/
theorem checkIndices_map_eq (l : List VideoPacket) :
    ∀ k, checkIndices l k = true →
      l.map VideoPacket.fragmentIndex = List.range' k l.length := by
  induction l with
  | nil => intro k _; rfl
  | cons f fs ih =>
    intro k hk
    simp only [checkIndices, Bool.and_eq_true, beq_iff_eq] at hk
    rw [List.map_cons, List.length_cons, List.range'_succ, hk.1, ih (k + 1) hk.2]

/-- Successful reassembly forces pairwise-distinct fragment indices. -/
theorem reassemble_requires_distinct_indices (l : List VideoPacket) (fr : Frame)
    (h : reassemble_video_frame l = some fr) :
    (l.map VideoPacket.fragmentIndex).Nodup := by
  match l with
  | [] => cases h
  | f0 :: rest =>
    rw [reassemble_video_frame] at h
    by_cases hlen : (f0 :: rest).length ≠ f0.totalFragments
    · rw [if_pos hlen] at h; cases h
    · rw [if_neg hlen] at h
      simp only at h
      by_cases hidx :
          checkIndices ((f0 :: rest).insertionSort fragIdxLe) 0 = true
      · have hmap := checkIndices_map_eq _ 0 hidx
        have hperm : List.Perm
            (((f0 :: rest).insertionSort fragIdxLe).map VideoPacket.fragmentIndex)
            ((f0 :: rest).map VideoPacket.fragmentIndex) :=
          (List.perm_insertionSort fragIdxLe (f0 :: rest)).map _
        have hnodup : (((f0 :: rest).insertionSort fragIdxLe).map
            VideoPacket.fragmentIndex).Nodup := by
          rw [hmap]
          exact List.nodup_range' _ _
        exact hperm.nodup_iff.mp hnodup
      · rw [if_neg hidx] at h; cases h

/-- C8 (amended): duplicate fragments are not idempotent.  The reassembly
buffer keeps every arriving copy, so once the same fragment has been appended
twice, `reassemble_video_frame` fails (returns `None`) no matter which other
fragments are present: the frame is counted incomplete instead of delivered. -/
theorem reassemble_duplicate_fragment_fails (l : List VideoPacket)
    (f : VideoPacket) (hf : f ∈ l) :
    reassemble_video_frame (l ++ [f]) = none := by
  cases h : reassemble_video_frame (l ++ [f]) with
  | none => rfl
  | some fr =>
    exfalso
    have hnodup := reassemble_requires_distinct_indices _ fr h
    rw [List.map_append] at hnodup
    rcases List.nodup_append.mp hnodup with ⟨-, -, hdisj⟩
    exact hdisj (List.mem_map_of_mem VideoPacket.fragmentIndex hf)
      (by simp)

/-- Witness for the amended C8 theorem at a concrete duplicate. -/
theorem reassemble_duplicate_fragment_fails_witness :
    reassemble_video_frame
      [{ seqNum := 0, tsMs := 0, flags := 4, payload := [1],
         frameIndex := 9, fragmentIndex := 0, totalFragments := 2 },
       { seqNum := 1, tsMs := 0, flags := 12, payload := [2],
         frameIndex := 9, fragmentIndex := 1, totalFragments := 2 },
       { seqNum := 0, tsMs := 0, flags := 4, payload := [1],
         frameIndex := 9, fragmentIndex := 0, totalFragments := 2 }] = none :=
  reassemble_duplicate_fragment_fails
    [{ seqNum := 0, tsMs := 0, flags := 4, payload := [1],
       frameIndex := 9, fragmentIndex := 0, totalFragments := 2 },
     { seqNum := 1, tsMs := 0, flags := 12, payload := [2],
       frameIndex := 9, fragmentIndex := 1, totalFragments := 2 }]
    { seqNum := 0, tsMs := 0, flags := 4, payload := [1],
      frameIndex := 9, fragmentIndex := 0, totalFragments := 2 }
    (by decide)

/-- C8 counterexample: the two fragments produced by
`fragment_video_frame([1,2], ..., max_payload=1, ...)` are delivered as a
complete frame when each arrives once, but when fragment 0 arrives twice the
receiver's `_handle_video_packet` delivers nothing and counts the frame
incomplete: the duplicate changed the reassembly outcome. -/
theorem duplicate_fragment_changes_outcome :
    fragment_video_frame [1, 2] 9 0 false 1 0 =
      [{ seqNum := 0, tsMs := 0, flags := 4, payload := [1],
         frameIndex := 9, fragmentIndex := 0, totalFragments := 2 },
       { seqNum := 1, tsMs := 0, flags := 12, payload := [2],
         frameIndex := 9, fragmentIndex := 1, totalFragments := 2 }] ∧
    (processPackets
      [{ seqNum := 0, tsMs := 0, flags := 4, payload := [1],
         frameIndex := 9, fragmentIndex := 0, totalFragments := 2 },
       { seqNum := 1, tsMs := 0, flags := 12, payload := [2],
         frameIndex := 9, fragmentIndex := 1, totalFragments := 2 }]
      initClientVideoState).frameQueue =
      [{ data := [1, 2], tsMs := 0, frameIndex := 9, isKeyframe := false }] ∧
    (processPackets
      [{ seqNum := 0, tsMs := 0, flags := 4, payload := [1],
         frameIndex := 9, fragmentIndex := 0, totalFragments := 2 },
       { seqNum := 0, tsMs := 0, flags := 4, payload := [1],
         frameIndex := 9, fragmentIndex := 0, totalFragments := 2 },
       { seqNum := 1, tsMs := 0, flags := 12, payload := [2],
         frameIndex := 9, fragmentIndex := 1, totalFragments := 2 }]
      initClientVideoState).frameQueue = [] ∧
    (processPackets
      [{ seqNum := 0, tsMs := 0, flags := 4, payload := [1],
         frameIndex := 9, fragmentIndex := 0, totalFragments := 2 },
       { seqNum := 0, tsMs := 0, flags := 4, payload := [1],
         frameIndex := 9, fragmentIndex := 0, totalFragments := 2 },
       { seqNum := 1, tsMs := 0, flags := 12, payload := [2],
         frameIndex := 9, fragmentIndex := 1, totalFragments := 2 }]
      initClientVideoState).incompleteFrames = 1 := by
  refine ⟨by decide, by decide, by decide, by decide⟩

/-- C5 counterexample: at `packet_loss = 1/10000`, `rtt = 0` the code computes
`int(1200 · 0.9995 · 1) = int(1199.4) = 1199`, while the claim's formula
(no truncation) yields `1199.4`; the two differ. -/
theorem payload_size_trunc_counterexample :
    calculate_optimal_payload_size (1/10000) 0 = 1199 ∧
    specPayloadFormula (1/10000) 0 = 5997 / 5 ∧
    ((1199 : ℚ) ≠ 5997 / 5) := by
  refine ⟨?_, ?_, by norm_num⟩
  · show max 500 (min 1400 (pyInt (1200 * lossFactor (1/10000) * rttFactor 0))) = 1199
    have h1 : lossFactor (1/10000) = 1999/2000 := by
      unfold lossFactor
      rw [min_eq_right (by norm_num)]
      norm_num
    have h2 : rttFactor 0 = 1 := by
      unfold rttFactor
      rw [if_neg (by norm_num)]
    rw [h1, h2]
    have h3 : (1200 : ℚ) * (1999/2000) * 1 = 5997/5 := by norm_num
    rw [h3]
    have h4 : pyInt (5997/5) = 1199 := by
      unfold pyInt
      rw [if_pos (by norm_num)]
      rw [show ((5997 : ℚ)/5) = (5997 : ℤ) / (5 : ℕ) by norm_num,
        Rat.floor_intCast_div_natCast]
      decide
    rw [h4]
    decide
  · show max 500 (min 1400 (1200 * lossFactor (1/10000) * rttFactor 0)) = 5997 / 5
    have h1 : lossFactor (1/10000) = 1999/2000 := by
      unfold lossFactor
      rw [min_eq_right (by norm_num)]
      norm_num
    have h2 : rttFactor 0 = 1 := by
      unfold rttFactor
      rw [if_neg (by norm_num)]
    rw [h1, h2]
    norm_num [max_eq_right, min_eq_right]

/-- C5 (amended): for every network-stats input the computed payload size is
`clamp(int(1200 · loss_factor · rtt_factor), 500, 1400)` — the claim's formula
with the code's `int()` truncation applied before the clamp — and in
particular it always lies in `[500, 1400]`. -/
theorem payload_size_clamped (packetLoss rtt : ℚ) :
    calculate_optimal_payload_size packetLoss rtt =
      specPayloadFormulaTrunc packetLoss rtt ∧
    500 ≤ calculate_optimal_payload_size packetLoss rtt ∧
    calculate_optimal_payload_size packetLoss rtt ≤ 1400 := by
  refine ⟨rfl, le_max_left _ _, ?_⟩
  exact max_le (by norm_num) (min_le_left _ _)

/-- C9 counterexample: for the cell weight `w = 1/20` and `max_delta = 10`
the code computes `int(9.5) = 9`, but `round((1 − w)·max_delta) = round(9.5)
= 10` (under the round-half-up convention, and Python's banker's rounding
also gives 10): the produced delta is not `round((1 − w)·max_delta)`. -/
theorem qp_delta_trunc_counterexample :
    get_qp_delta_map [[1/20]] 10 = [[9]] ∧
    round ((1 - (1/20 : ℚ)) * 10) = 10 ∧
    ((9 : ℤ) ≠ 10) := by
  refine ⟨?_, ?_, by norm_num⟩
  · show [[qpDeltaCell (1/20) 10]] = [[9]]
    have h : qpDeltaCell (1/20) 10 = 9 := by
      unfold qpDeltaCell pyInt
      rw [if_pos (by norm_num)]
      rw [show ((1 : ℚ) - 1/20) * 10 = (19 : ℤ) / (2 : ℕ) by norm_num,
        Rat.floor_intCast_div_natCast]
      decide
    rw [h]
  · rw [show ((1 : ℚ) - 1/20) * 10 = 19/2 by norm_num]
    rw [round_eq]
    rw [show (19 : ℚ)/2 + 1/2 = (10 : ℤ) / (1 : ℕ) by norm_num,
      Rat.floor_intCast_div_natCast]
    norm_num

/-- C9 (amended): with `max_delta = 10`, every cell of the QP-delta map holds
`int((1 − w)·10) = ⌊(1 − w)·10⌋` (truncation, not rounding); for cell weights
in `[0, 1]` the delta lies in `[0, 10]` and is antitone in the weight, so a
higher weight yields a smaller-or-equal (better-quality) QP delta. -/
theorem qp_delta_map_cells :
    (∀ (weights : List (List ℚ)) (i j : Nat) (row : List ℚ) (w : ℚ),
      weights[i]? = some row → row[j]? = some w → 0 ≤ w → w ≤ 1 →
      ∃ drow : List ℤ, (get_qp_delta_map weights 10)[i]? = some drow ∧
        drow[j]? = some (qpDeltaCell w 10) ∧
        qpDeltaCell w 10 = ⌊(1 - w) * 10⌋ ∧
        0 ≤ qpDeltaCell w 10 ∧ qpDeltaCell w 10 ≤ 10) ∧
    (∀ w w' : ℚ, 0 ≤ w → w ≤ w' → w' ≤ 1 →
      qpDeltaCell w' 10 ≤ qpDeltaCell w 10) := by
  have hcell : ∀ w : ℚ, w ≤ 1 → qpDeltaCell w 10 = ⌊(1 - w) * 10⌋ := by
    intro w hw
    unfold qpDeltaCell pyInt
    rw [if_pos (by nlinarith)]
  constructor
  · intro weights i j row w hrow hw h0 h1
    refine ⟨row.map (fun w => qpDeltaCell w 10), ?_, ?_, hcell w h1, ?_, ?_⟩
    · unfold get_qp_delta_map
      rw [List.getElem?_map, hrow]
      rfl
    · rw [List.getElem?_map, hw]
      rfl
    · rw [hcell w h1]
      exact Int.floor_nonneg.mpr (by nlinarith)
    · rw [hcell w h1]
      calc ⌊(1 - w) * 10⌋ ≤ ⌊(10 : ℚ)⌋ := Int.floor_le_floor (by nlinarith)
        _ = 10 := by norm_num
  · intro w w' h0 hle h1
    rw [hcell w (by linarith), hcell w' h1]
    exact Int.floor_le_floor (by nlinarith)

/-- Witness for the amended C9 theorem at concrete cells. -/
theorem qp_delta_map_cells_witness :
    (∃ drow : List ℤ, (get_qp_delta_map [[1/2]] 10)[0]? = some drow ∧
      drow[0]? = some (qpDeltaCell (1/2) 10) ∧
      qpDeltaCell (1/2) 10 = ⌊(1 - (1/2 : ℚ)) * 10⌋ ∧
      0 ≤ qpDeltaCell (1/2) 10 ∧ qpDeltaCell (1/2) 10 ≤ 10) ∧
    qpDeltaCell (1 : ℚ) 10 ≤ qpDeltaCell (0 : ℚ) 10 :=
  ⟨qp_delta_map_cells.1 [[1/2]] 0 0 [1/2] (1/2) rfl rfl
      (by norm_num) (by norm_num),
   qp_delta_map_cells.2 0 1 (by norm_num) (by norm_num) (by norm_num)⟩

/-- C6 counterexample: from the freshly initialized classifier (class GOOD,
stability 0), a SINGLE sample classifying as VERY_POOR immediately commits a
class change — not 3 consecutive samples as claimed. -/
theorem class_change_after_one_sample :
    get_network_type initClassifier = NETWORK_TYPE_GOOD ∧
    classify { rtt := 1000, packetLoss := 1/2, bandwidth := 0 } =
      NETWORK_TYPE_VERY_POOR ∧
    get_network_type (classifierUpdate initClassifier
      { rtt := 1000, packetLoss := 1/2, bandwidth := 0 }) =
      NETWORK_TYPE_VERY_POOR := by
  refine ⟨rfl, by decide, by decide⟩

/-- A classifier whose stability counter is at least 2 keeps its class over
one update of any kind. -/
theorem classifierUpdate_preserves (st : ClassifierState) (s : NetStats)
    (h : 2 ≤ st.typeStability) :
    (classifierUpdate st s).currentType = st.currentType := by
  unfold classifierUpdate
  split_ifs with h1 h2
  · rfl
  · exact absurd h2 (by omega)
  · rfl

/-- One update lowers a saturated stability counter by at most one. -/
theorem classifierUpdate_stability (st : ClassifierState) (s : NetStats)
    (h : st.typeStability = TYPE_SWITCH_THRESHOLD) :
    2 ≤ (classifierUpdate st s).typeStability := by
  unfold classifierUpdate TYPE_SWITCH_THRESHOLD
  unfold TYPE_SWITCH_THRESHOLD at h
  split_ifs with h1 h2
  · show 2 ≤ min (st.typeStability + 1) 3
    rw [min_def]
    split_ifs <;> omega
  · exact absurd h2 (by omega)
  · show 2 ≤ st.typeStability - 1
    omega

/-- C6 (amended): a class change is committed when the stability counter
reaches 0: agreeing samples raise it (capped at 3), each disagreeing sample
lowers it by 1.  From a saturated state (counter = 3) fewer than 3
disagreeing samples never commit a change — but the 3 disagreeing samples
need not classify as the same new class, and from a freshly initialized or
just-switched state (counter = 0) a single disagreeing sample changes the
class immediately. -/
theorem saturated_classifier_keeps_class_two_samples (st : ClassifierState)
    (h : st.typeStability = TYPE_SWITCH_THRESHOLD) (a b : NetStats) :
    get_network_type (classifierUpdate (classifierUpdate st a) b) =
      get_network_type st := by
  have h3 : st.typeStability = 3 := h
  have hs := classifierUpdate_stability st a h
  have h1 := classifierUpdate_preserves st a (by omega)
  have h2 := classifierUpdate_preserves (classifierUpdate st a) b hs
  unfold get_network_type
  rw [h2, h1]

/-- Witness for the amended C6 theorem: a saturated GOOD classifier stays
GOOD across two disagreeing samples. -/
theorem saturated_classifier_keeps_class_witness :
    get_network_type (classifierUpdate (classifierUpdate
      { currentType := NETWORK_TYPE_GOOD, typeStability := 3 }
      { rtt := 1000, packetLoss := 1/2, bandwidth := 0 })
      { rtt := 250, packetLoss := 0, bandwidth := 2000000 }) =
    get_network_type { currentType := NETWORK_TYPE_GOOD, typeStability := 3 } :=
  saturated_classifier_keeps_class_two_samples
    { currentType := NETWORK_TYPE_GOOD, typeStability := 3 } rfl
    { rtt := 1000, packetLoss := 1/2, bandwidth := 0 }
    { rtt := 250, packetLoss := 0, bandwidth := 2000000 }

theorem xorPad_nil_right (xs : List Nat) : xorPad xs [] = xs := by
  cases xs <;> rfl

theorem length_xorPad (xs ys : List Nat) :
    (xorPad xs ys).length = max xs.length ys.length := by
  induction xs generalizing ys with
  | nil => simp [xorPad]
  | cons x xs ih =>
    cases ys with
    | nil => simp [xorPad]
    | cons y ys => simp [xorPad, ih, Nat.succ_max_succ]

/-- On a payload no longer than the accumulator, the source's in-place XOR
loop is the padded XOR. -/
theorem xorInto_eq_xorPad (ys : List Nat) :
    ∀ xs : List Nat, ys.length ≤ xs.length → xorInto xs ys = xorPad xs ys := by
  induction ys with
  | nil => intro xs h; rw [xorPad_nil_right]; cases xs <;> rfl
  | cons y ys ih =>
    intro xs h
    cases xs with
    | nil => simp at h
    | cons x xs =>
      show (x ^^^ y) :: xorInto xs ys = (x ^^^ y) :: xorPad xs ys
      rw [ih xs (by simpa using h)]

theorem xorPad_comm (xs ys : List Nat) : xorPad xs ys = xorPad ys xs := by
  induction xs generalizing ys with
  | nil => rw [xorPad_nil_right]; rfl
  | cons x xs ih =>
    cases ys with
    | nil => rfl
    | cons y ys =>
      show (x ^^^ y) :: xorPad xs ys = (y ^^^ x) :: xorPad ys xs
      rw [Nat.xor_comm, ih]

theorem xorPad_assoc (a b c : List Nat) :
    xorPad (xorPad a b) c = xorPad a (xorPad b c) := by
  induction a generalizing b c with
  | nil => rfl
  | cons x a ih =>
    cases b with
    | nil => rfl
    | cons y b =>
      cases c with
      | nil => rfl
      | cons z c =>
        show (x ^^^ y ^^^ z) :: xorPad (xorPad a b) c =
          (x ^^^ (y ^^^ z)) :: xorPad a (xorPad b c)
        rw [Nat.xor_assoc, ih]

theorem foldl_xorPad_eq (l : List (List Nat)) :
    ∀ z : List Nat, l.foldl xorPad z = xorPad z (bigXor l) := by
  induction l with
  | nil => intro z; exact (xorPad_nil_right z).symm
  | cons p l ih =>
    intro z
    show (l.foldl xorPad (xorPad z p)) = xorPad z (xorPad p (bigXor l))
    rw [ih (xorPad z p), xorPad_assoc]

theorem length_bigXor (l : List (List Nat)) :
    (bigXor l).length = l.foldr (fun p m => max p.length m) 0 := by
  induction l with
  | nil => rfl
  | cons p l ih =>
    show (xorPad p (bigXor l)).length = max p.length _
    rw [length_xorPad, ih]

theorem mem_le_foldr_max (l : List (List Nat)) (p : List Nat) (hp : p ∈ l) :
    p.length ≤ l.foldr (fun q m => max q.length m) 0 := by
  induction l with
  | nil => cases hp
  | cons q l ih =>
    rcases List.mem_cons.mp hp with h | h
    · subst h; exact le_max_left _ _
    · exact (ih h).trans (le_max_right _ _)

/-- When every payload fits the accumulator, the folded in-place XOR agrees
with the folded padded XOR. -/
theorem foldl_xorInto_eq (l : List (List Nat)) :
    ∀ z : List Nat, (∀ p ∈ l, p.length ≤ z.length) →
      l.foldl xorInto z = l.foldl xorPad z := by
  induction l with
  | nil => intro z _; rfl
  | cons p l ih =>
    intro z hz
    show l.foldl xorInto (xorInto z p) = l.foldl xorPad (xorPad z p)
    rw [xorInto_eq_xorPad p z (hz p (by simp))]
    apply ih
    intro q hq
    rw [length_xorPad]
    exact le_trans (hz q (by simp [hq])) (le_max_left _ _)

theorem bigXor_eraseIdx (l : List (List Nat)) :
    ∀ i : Nat, (hi : i < l.length) →
      bigXor l = xorPad l[i] (bigXor (l.eraseIdx i)) := by
  induction l with
  | nil => intro i hi; cases hi
  | cons p l ih =>
    intro i hi
    cases i with
    | zero => rfl
    | succ i =>
      have hi' : i < l.length := by simpa using hi
      show xorPad p (bigXor l) = xorPad l[i] (xorPad p (bigXor (l.eraseIdx i)))
      rw [ih i hi', ← xorPad_assoc, xorPad_comm p _, xorPad_assoc]

theorem xorPad_self (xs : List Nat) :
    xorPad xs xs = List.replicate xs.length 0 := by
  induction xs with
  | nil => rfl
  | cons x xs ih =>
    show (x ^^^ x) :: xorPad xs xs = 0 :: List.replicate xs.length 0
    rw [Nat.xor_self, ih]

theorem xorPad_replicate_zero_left (L : Nat) :
    ∀ xs : List Nat, xorPad (List.replicate L 0) xs =
      xs ++ List.replicate (L - xs.length) 0 := by
  induction L with
  | zero => intro xs; simp [xorPad]
  | succ L ih =>
    intro xs
    cases xs with
    | nil => simp [xorPad_nil_right]
    | cons x xs =>
      show (0 ^^^ x) :: xorPad (List.replicate L 0) xs =
        x :: (xs ++ List.replicate ((L + 1) - (xs.length + 1)) 0)
      rw [Nat.succ_sub_succ, Nat.zero_xor, ih xs]

theorem xorPad_replicate_zero_right (L : Nat) (xs : List Nat) :
    xorPad xs (List.replicate L 0) =
      xs ++ List.replicate (L - xs.length) 0 := by
  rw [xorPad_comm]
  exact xorPad_replicate_zero_left L xs

/-- `(l.map f).eraseIdx i = (l.eraseIdx i).map f`. -/
theorem map_eraseIdx {α β : Type} (f : α → β) (l : List α) :
    ∀ i : Nat, (l.map f).eraseIdx i = (l.eraseIdx i).map f := by
  induction l with
  | nil => intro i; cases i <;> rfl
  | cons x l ih =>
    intro i
    cases i with
    | zero => rfl
    | succ i =>
      show f x :: (l.map f).eraseIdx i = f x :: (l.eraseIdx i).map f
      rw [ih i]

/-- `_compute_fec` as the padded XOR of the whole block over the zero
buffer. -/
theorem compute_fec_eq (ps : List VideoPacket) (hps : ps ≠ []) :
    compute_fec ps =
      xorPad (List.replicate
          ((ps.map (fun p => p.payload.length)).foldr max 0) 0)
        (bigXor (ps.map VideoPacket.payload)) := by
  match ps, hps with
  | q :: qs, _ =>
    show (q :: qs).foldl (fun acc p => xorInto acc p.payload)
        (List.replicate (((q :: qs).map (fun p => p.payload.length)).foldr max 0) 0) = _
    have hmapfold : ((q :: qs).map VideoPacket.payload).foldl xorInto
        (List.replicate (((q :: qs).map (fun p => p.payload.length)).foldr max 0) 0) =
        (q :: qs).foldl (fun acc p => xorInto acc p.payload)
          (List.replicate (((q :: qs).map (fun p => p.payload.length)).foldr max 0) 0) :=
      List.foldl_map _ _ _ _
    rw [← hmapfold]
    rw [foldl_xorInto_eq]
    · rw [foldl_xorPad_eq]
    · intro p hp
      rw [List.length_replicate]
      rcases List.mem_map.mp hp with ⟨v, hv, rfl⟩
      have hmem : v.payload.length ∈
          (q :: qs).map (fun p => p.payload.length) :=
        List.mem_map_of_mem (fun p => p.payload.length) hv
      have hfold := mem_le_foldr_max ((q :: qs).map VideoPacket.payload)
        v.payload (List.mem_map_of_mem VideoPacket.payload hv)
      calc v.payload.length
          ≤ ((q :: qs).map VideoPacket.payload).foldr
              (fun q m => max q.length m) 0 := hfold
        _ = ((q :: qs).map (fun p => p.payload.length)).foldr max 0 := by
            simp only [List.foldr_map]

/-- The spec's recovery identity holds of `_compute_fec`: XORing the parity
with the remaining k−1 payloads and truncating to the erased packet's
payload length reconstructs that payload byte for byte. -/
theorem recover_xor_sound (ps : List VideoPacket) (i : Nat)
    (hi : i < ps.length) :
    recover_xor (compute_fec ps) ((ps.eraseIdx i).map VideoPacket.payload)
      ps[i].payload.length = ps[i].payload := by
  have hps : ps ≠ [] := by
    intro h
    rw [h] at hi
    cases hi
  set M : Nat := (ps.map (fun p => p.payload.length)).foldr max 0 with hM
  set pls : List (List Nat) := ps.map VideoPacket.payload with hpls
  have hilen : i < pls.length := by simpa [hpls] using hi
  have hget : pls[i] = ps[i].payload := by
    simp [hpls]
  have hmaxform : M = pls.foldr (fun p m => max p.length m) 0 := by
    rw [hM, hpls]
    simp only [List.foldr_map]
  have hparity := compute_fec_eq ps hps
  have hpar_len : (compute_fec ps).length = M := by
    rw [hparity, length_xorPad, List.length_replicate, length_bigXor,
      ← hmaxform]
    exact max_self M
  have herase : (ps.eraseIdx i).map VideoPacket.payload = pls.eraseIdx i := by
    rw [hpls, map_eraseIdx]
  unfold recover_xor
  rw [herase, ← hget]
  have hfits : ∀ p ∈ pls.eraseIdx i, p.length ≤ (compute_fec ps).length := by
    intro p hp
    rw [hpar_len]
    have hpmem : p ∈ pls := (List.eraseIdx_sublist pls i).subset hp
    rw [hmaxform]
    exact mem_le_foldr_max pls p hpmem
  rw [foldl_xorInto_eq _ _ hfits, foldl_xorPad_eq, hparity,
    bigXor_eraseIdx pls i hilen, xorPad_assoc, xorPad_assoc, xorPad_self,
    xorPad_replicate_zero_right, xorPad_replicate_zero_left,
    List.append_assoc, List.take_left]

/-- C3: the claim is right about the arithmetic but the receiver never
performs it.  `_handle_fec_packet` leaves the client state unchanged on
every FEC packet (first conjunct): the recovery is an unimplemented TODO.
Yet the recovery the spec describes is sound (second conjunct): for every
FEC block and every erased index, XORing the parity computed by
`_compute_fec` with the remaining payloads and truncating to the erased
packet's payload length reconstructs that payload byte for byte. -/
theorem fec_recovery_is_stubbed :
    (∀ (st : ClientVideoState) (p : FECPacket), handle_fec_packet st p = st) ∧
    (∀ (ps : List VideoPacket) (i : Nat), (hi : i < ps.length) →
      recover_xor (compute_fec ps) ((ps.eraseIdx i).map VideoPacket.payload)
        ps[i].payload.length = ps[i].payload) :=
  ⟨fun _ _ => rfl, fun ps i hi => recover_xor_sound ps i hi⟩

/-- Witness for the C3 theorem on a concrete 2-packet block with the first
packet erased. -/
theorem fec_recovery_is_stubbed_witness :
    handle_fec_packet initClientVideoState
      { seqNum := 5, tsMs := 0, blockIndex := 0, sourceSeqNums := [0, 1],
        fecData := [2, 2] } = initClientVideoState ∧
    recover_xor
      (compute_fec
        [{ seqNum := 0, tsMs := 0, flags := 0, payload := [1, 2],
           frameIndex := 0, fragmentIndex := 0, totalFragments := 2 },
         { seqNum := 1, tsMs := 0, flags := 0, payload := [3],
           frameIndex := 0, fragmentIndex := 1, totalFragments := 2 }])
      ((([{ seqNum := 0, tsMs := 0, flags := 0, payload := [1, 2],
            frameIndex := 0, fragmentIndex := 0, totalFragments := 2 },
          { seqNum := 1, tsMs := 0, flags := 0, payload := [3],
            frameIndex := 0, fragmentIndex := 1, totalFragments := 2 }] :
          List VideoPacket).eraseIdx 0).map VideoPacket.payload) 2 =
      [1, 2] :=
  ⟨fec_recovery_is_stubbed.1 _ _,
   fec_recovery_is_stubbed.2
    [{ seqNum := 0, tsMs := 0, flags := 0, payload := [1, 2],
       frameIndex := 0, fragmentIndex := 0, totalFragments := 2 },
     { seqNum := 1, tsMs := 0, flags := 0, payload := [3],
       frameIndex := 0, fragmentIndex := 1, totalFragments := 2 }]
    0 (by decide)⟩

/-- C4: the sender has no retransmission path.  `_handle_nack` returns the
server state unchanged for every state and every NACK body — in particular
the send queue never receives a copy of a NACKed packet — because the send
cache and the re-enqueue logic the claim describes are an unimplemented
TODO in the source. -/
theorem nack_never_retransmits (st : ServerSendState) (ctrlData : Json) :
    handle_nack st ctrlData = st ∧
    (handle_nack st ctrlData).sendQueue = st.sendQueue := by
  have h : handle_nack st ctrlData = st := by
    unfold handle_nack
    rcases ctrlData with _ | _ | _ | _ | _ | fields
    · rfl
    · rfl
    · rfl
    · rfl
    · simp only
      rcases jsonGet _ _ with _ | j
      · rfl
      · rcases j with _ | _ | _ | _ | elems | _ <;> try rfl
        rcases elems with _ | _ <;> rfl
    · rcases fields with _ | _
      · rfl
      · simp only
        rcases jsonGet _ _ with _ | j
        · rfl
        · rcases j with _ | _ | _ | _ | elems | _ <;> try rfl
          rcases elems with _ | _ <;> rfl
  exact ⟨h, by rw [h]⟩

/-- C10: for every STATS control packet whose `ctrl_data` has both the keys
`"rtt"` and `"packet_loss"`, `_handle_client_stats` reaches the call
`self.network_monitor.update_from_client(...)`, and since `NetworkMonitor`
defines no method of that name, the handler raises `AttributeError` instead
of completing. -/
theorem client_stats_raises_attribute_error (ctrlDataKeys : List String)
    (hrtt : "rtt" ∈ ctrlDataKeys) (hloss : "packet_loss" ∈ ctrlDataKeys) :
    handle_client_stats ctrlDataKeys =
      HandlerResult.attributeError "update_from_client" := by
  unfold handle_client_stats
  rw [if_neg (by rintro rfl; cases hrtt), if_pos ⟨hrtt, hloss⟩,
    if_neg (by decide)]

/-- Witness for the C10 theorem at a concrete STATS body. -/
theorem client_stats_raises_attribute_error_witness :
    handle_client_stats ["rtt", "packet_loss", "bandwidth"] =
      HandlerResult.attributeError "update_from_client" :=
  client_stats_raises_attribute_error ["rtt", "packet_loss", "bandwidth"]
    (by decide) (by decide)

/-- C2: the packet-codec round trip fails for `ControlPacket`.
`ControlPacket.serialize` writes only `json.dumps(ctrl_data)` as the payload
— `ctrl_type` is never serialized — while `ControlPacket.from_base` reads
the FIRST PAYLOAD BYTE as `ctrl_type` and parses the remainder as JSON.
Deserializing a serialized NACK (`ctrl_type = 1`,
`ctrl_data = {"missing_seqs": [5]}`) therefore yields `ctrl_type = 123`
(the byte `'\x7b'`, the JSON object opener) and `ctrl_data = {}` (the
remainder fails to parse and the bare `except:` substitutes `{}`). -/
theorem control_packet_roundtrip_loses_ctrl_type :
    Packet.deserialize (ControlPacket.serialize
      { seqNum := 1, tsMs := 0, ctrlType := CTRL_TYPE_NACK,
        ctrlData := Json.jobj [(asciiBytes "missing_seqs",
          Json.jarr [Json.jnum 5])] }) =
      some (PacketV.control
        { seqNum := 1, tsMs := 0, ctrlType := 123, ctrlData := Json.jobj [] }) ∧
    CTRL_TYPE_NACK ≠ 123 := by
  exact ⟨rfl, by decide⟩

end Streaming

